import Mathlib

/-!
Verification of the dynamic table-to-shelf classification pipeline of the
Spotify-clone repository.

The definitions below are a shallow embedding of:
  * the front-end component `src/src/components/spotify-main-content.tsx`
    (`fetchData`: music-data detector, row normalizer `mappedData`, section
    classifier, post-hoc redistribution of the unassigned pool),
  * the API handlers `src/src/app/api/db/route.ts` (row fetcher `GET`) and the
    tables-route handler (table discovery `GET`).

JavaScript values appearing in rows are modelled by `JsVal` (string, number,
null), a row/object by an association list `Obj` whose lookup is
"last binding wins" (so an object literal `{ a, ...item }` is `fields ++ item`),
and JavaScript truthiness, `||`, `toLowerCase`, `trim`, `includes` and
`split` by the `js*`-prefixed helpers.  Randomness (`Math.random()`) is
modelled by explicit oracle parameters (`NormCtx`), and network / child-process
effects by `Except` parameters supplied to the handler functions.
-/

namespace Spotify

/-- Scalar value of a database row as seen by the front end (spec §3:
string, number, or null). -/
inductive JsVal where
  | str : String → JsVal
  | num : Int → JsVal
  | null : JsVal
  deriving DecidableEq, Repr

/-- A Javascript object as an association list; later bindings shadow earlier
ones, matching object-literal spread semantics. -/
abbrev Obj : Type := List (String × JsVal)

/-- Property lookup (`item.k`): the last binding for `k`, if any; `none`
models `undefined`. -/
def oget (o : Obj) (k : String) : Option JsVal :=
  (o.reverse.find? (fun p => p.1 == k)).map Prod.snd

/-- The Javascript `in` operator / presence of a key. -/
def hasKey (o : Obj) (k : String) : Bool :=
  (oget o k).isSome

/-- Javascript truthiness of a value: `""`, `0` and `null` are falsy. -/
def truthy : JsVal → Bool
  | JsVal.str s => !(s == "")
  | JsVal.num n => !(n == 0)
  | JsVal.null => false

/-- Truthiness of a possibly-`undefined` value. -/
def truthyO : Option JsVal → Bool
  | some v => truthy v
  | none => false

/-- Javascript `a || b` on a possibly-undefined left operand. -/
def jsOr (a : Option JsVal) (b : JsVal) : JsVal :=
  match a with
  | some v => if truthy v then v else b
  | none => b

/-- ASCII lowering of a character, as `toLowerCase` acts on the ASCII range
(all strings compared by the source are ASCII). -/
def jsLowerChar (c : Char) : Char :=
  if 'A' ≤ c ∧ c ≤ 'Z' then Char.ofNat (c.toNat + 32) else c

/-- Javascript `String.prototype.toLowerCase` (ASCII range). -/
def jsToLower (s : String) : String :=
  String.mk (s.data.map jsLowerChar)

/-- Whitespace characters removed by `String.prototype.trim` (ASCII subset). -/
def jsIsWhitespace (c : Char) : Bool :=
  c == ' ' || c == '\t' || c == '\n' || c == '\r'

/-- Javascript `String.prototype.trim`. -/
def jsTrim (s : String) : String :=
  String.mk (((s.data.dropWhile jsIsWhitespace).reverse.dropWhile jsIsWhitespace).reverse)

/-- Does `hay` start with `needle`? (helper for `strIncludes`). -/
def charsStartWith : List Char → List Char → Bool
  | [], _ => true
  | _ :: _, [] => false
  | a :: as, b :: bs => a == b && charsStartWith as bs

/-- Does `needle` occur as a contiguous run inside `hay`? -/
def charsContain (needle : List Char) : List Char → Bool
  | [] => needle.isEmpty
  | c :: rest => charsStartWith needle (c :: rest) || charsContain needle rest

/-- Javascript `hay.includes(needle)`: substring containment. -/
def strIncludes (hay needle : String) : Bool :=
  charsContain needle.data hay.data

/-- Javascript `s.split(sep)` for a non-empty string separator. -/
def jsSplit (s sep : String) : List String :=
  s.splitOn sep

/-! ## Row normalizer (`mappedData` in `spotify-main-content.tsx`) -/

/-- Oracle for the two `Math.random()` draws a single row may consume:
`randDur` models `Math.floor(Math.random() * 300)` (so `randDur < 300` is
assumed where the range matters) and `randId` models
`Math.random().toString()`. -/
structure NormCtx where
  randDur : Nat
  randId : String
  deriving Repr, DecidableEq

/-- The `preferReal` helper of the component, on a value already known to be
a string is only accepted when it is truthy, trims to something non-empty,
its lowercase form contains none of `id` / `unknown` / `test`, and it is
longer than one character; everything else (and every non-string) yields
the fallback. -/
def preferRealV (v : JsVal) (fallback : String) : JsVal :=
  match v with
  | JsVal.str s =>
    if !(s == "") && !(jsTrim s == "") &&
        !(strIncludes (jsToLower s) "id") &&
        !(strIncludes (jsToLower s) "unknown") &&
        !(strIncludes (jsToLower s) "test") &&
        decide (s.length > 1) then
      JsVal.str s
    else JsVal.str fallback
  | _ => JsVal.str fallback

/-- `preferReal(val, fallback)` on a possibly-`undefined` argument
(`undefined` is falsy, so it falls through to the fallback). -/
def preferReal (v : Option JsVal) (fallback : String) : JsVal :=
  match v with
  | some x => preferRealV x fallback
  | none => JsVal.str fallback

/-- The placeholder image URL used as the last image fallback. -/
def defaultImage : String :=
  "https://v3.fal.media/files/panda/kvQ0deOgoUWHP04ajVH3A_output.png"

/-- The ordered title fallback chain of the generic branch:
`title`, `song_name`, `track_name`, `name`, `album`, `album_name`. -/
def titleChainKeys : List String :=
  ["title", "song_name", "track_name", "name", "album", "album_name"]

/-- The `if (item.a) x = item.a else if (item.b) ...` cascade: value of the
first key bound to a truthy value, else the default. -/
def firstTruthy (item : Obj) (dflt : JsVal) : List String → JsVal
  | [] => dflt
  | k :: ks =>
    match oget item k with
    | some v => if truthy v then v else firstTruthy item dflt ks
    | none => firstTruthy item dflt ks

/-- The computed fields of one normalized row, before the trailing
`...item` spread.  The five branches mirror the source: (1) tables with
`description` and `type` keys, (2) truthy `artist` and `album` without a
truthy `cover_image`, (3) tables with a `cover_image` key, (4) tables with
`artist` and `album` keys, (5) the generic fallback with per-field
name chains.  Every branch produces the six keys
`id, title, artist, album, image, duration` in this order. -/
def normFields (ctx : NormCtx) (item : Obj) : Obj :=
  if hasKey item "description" && hasKey item "type" then
    [("id", jsOr (oget item "id") (JsVal.str ctx.randId)),
     ("title", preferReal (oget item "title") "Unknown Playlist"),
     ("artist", preferReal (oget item "description") "Playlist Description"),
     ("album", preferReal (oget item "type") "Playlist Type"),
     ("image", jsOr (oget item "image_url") (jsOr (oget item "image") (JsVal.str defaultImage))),
     ("duration", jsOr (oget item "duration") (JsVal.num (120 + (ctx.randDur : Int))))]
  else if truthyO (oget item "artist") && truthyO (oget item "album") &&
      !truthyO (oget item "cover_image") then
    [("id", jsOr (oget item "id") (JsVal.str ctx.randId)),
     ("title", preferReal (oget item "title") "Unknown Playlist"),
     ("artist", preferReal (oget item "artist") "Unknown Artist"),
     ("album", preferReal (oget item "album") "Unknown Album"),
     ("image", jsOr (oget item "image") (JsVal.str defaultImage)),
     ("duration", jsOr (oget item "duration") (JsVal.num (120 + (ctx.randDur : Int))))]
  else if hasKey item "cover_image" then
    [("id", jsOr (oget item "id") (JsVal.str ctx.randId)),
     ("title", preferReal (oget item "title") "Unknown Album"),
     ("artist", preferReal (oget item "artist") "Unknown Artist"),
     ("album", preferReal (oget item "title") "Album"),
     ("image", jsOr (oget item "cover_image") (jsOr (oget item "image") (JsVal.str defaultImage))),
     ("duration", jsOr (oget item "duration") (JsVal.num (120 + (ctx.randDur : Int))))]
  else if hasKey item "artist" && hasKey item "album" then
    [("id", jsOr (oget item "id") (JsVal.str ctx.randId)),
     ("title", preferReal (oget item "title") "Unknown Track"),
     ("artist", preferReal (oget item "artist") "Unknown Artist"),
     ("album", preferReal (oget item "album") "Unknown Album"),
     ("image", jsOr (oget item "image") (JsVal.str defaultImage)),
     ("duration", jsOr (oget item "duration") (JsVal.num (120 + (ctx.randDur : Int))))]
  else
    [("id", jsOr (oget item "id") (JsVal.str ctx.randId)),
     ("title", preferRealV (firstTruthy item (JsVal.str "Unknown Title") titleChainKeys)
        "Unknown Title"),
     ("artist", preferRealV (firstTruthy item (JsVal.str "Unknown Artist")
        ["artist", "artist_name", "creator"]) "Unknown Artist"),
     ("album", preferRealV (firstTruthy item (JsVal.str "Unknown Album")
        ["album", "album_name", "albumname"]) "Unknown Album"),
     ("image", firstTruthy item (JsVal.str defaultImage) ["image", "cover_image", "cover"]),
     ("duration", jsOr (oget item "duration") (JsVal.num (120 + (ctx.randDur : Int))))]

/-- One normalized row: every source branch returns an object literal of the
computed fields followed by the spread `...item`, i.e. the original row's
bindings shadow the computed ones. -/
def normalizeItem (ctx : NormCtx) (item : Obj) : Obj :=
  normFields ctx item ++ item

/-! ## Music-data detector (`hasMusicData`) -/

/-- The fixed keyword set of the music-data detector, in source order. -/
def musicKeywords : List String :=
  ["name", "title", "artist", "song", "album", "track", "playlist", "music",
   "id", "image", "cover", "duration", "time"]

/-- One column of the detector: the lowercased column name contains at least
one of the thirteen keywords (the source's thirteen-way `includes` chain). -/
def colHasMusic (col : String) : Bool :=
  strIncludes (jsToLower col) "name" ||
  strIncludes (jsToLower col) "title" ||
  strIncludes (jsToLower col) "artist" ||
  strIncludes (jsToLower col) "song" ||
  strIncludes (jsToLower col) "album" ||
  strIncludes (jsToLower col) "track" ||
  strIncludes (jsToLower col) "playlist" ||
  strIncludes (jsToLower col) "music" ||
  strIncludes (jsToLower col) "id" ||
  strIncludes (jsToLower col) "image" ||
  strIncludes (jsToLower col) "cover" ||
  strIncludes (jsToLower col) "duration" ||
  strIncludes (jsToLower col) "time"

/-- The music-data detector: some column of the sampled row matches. -/
def hasMusicData (columns : List String) : Bool :=
  columns.any colHasMusic

/-! ## Section classifier: table-name keyword matching -/

/-- Recently-Played name indicators (`isRecentlyPlayed`), applied to the
lowercased table name. -/
def nameIsRecentlyPlayed (tl : String) : Bool :=
  strIncludes tl "recent" || strIncludes tl "played" || strIncludes tl "listened" ||
  strIncludes tl "history" || strIncludes tl "activity" || strIncludes tl "song" ||
  strIncludes tl "track" || strIncludes tl "recently_played" ||
  strIncludes tl "recent_tracks" || strIncludes tl "listening_history"

/-- Made-For-You name indicators (`isMadeForYou`). -/
def nameIsMadeForYou (tl : String) : Bool :=
  strIncludes tl "made" || strIncludes tl "for" || strIncludes tl "you" ||
  strIncludes tl "personal" || strIncludes tl "recommend" || strIncludes tl "playlist" ||
  strIncludes tl "mix" || strIncludes tl "weekly" || strIncludes tl "daily" ||
  strIncludes tl "curated" || strIncludes tl "personalized" ||
  strIncludes tl "made_for_you" || strIncludes tl "personalized_mixes" ||
  strIncludes tl "daily_mixes" || strIncludes tl "recommended_playlists"

/-- Popular-Albums name indicators (`isPopularAlbums`). -/
def nameIsPopularAlbums (tl : String) : Bool :=
  strIncludes tl "popular" || strIncludes tl "album" || strIncludes tl "trending" ||
  strIncludes tl "chart" || strIncludes tl "hit" || strIncludes tl "top" ||
  strIncludes tl "new" || strIncludes tl "release" || strIncludes tl "popular_albums" ||
  strIncludes tl "trending_albums" || strIncludes tl "new_releases" ||
  strIncludes tl "chart_toppers"

/-! ## Section classifier: content-based scoring (`contentAnalysis`) -/

/-- Accumulator of the `reduce` over the mapped rows. -/
structure ContentCounts where
  playlistCount : Nat
  albumCount : Nat
  songCount : Nat
  madeForYouCount : Nat
  recentlyPlayedCount : Nat
  popularAlbumsCount : Nat
  deriving Repr, DecidableEq

/-- Read a string-valued field of a mapped item, as `item.title.toLowerCase()`
does.  The source would raise a `TypeError` on a non-string here; that case is
mapped to `""` and excluded by the string-valuedness hypotheses of the
theorems that use the pipeline. -/
def lowerField (m : Obj) (k : String) : String :=
  match oget m k with
  | some (JsVal.str s) => jsToLower s
  | _ => ""

/-- One step of `contentAnalysis`: the six independent counter updates. -/
def contentStep (acc : ContentCounts) (m : Obj) : ContentCounts :=
  let title := lowerField m "title"
  let artist := lowerField m "artist"
  let album := lowerField m "album"
  let acc :=
    if strIncludes title "mix" || strIncludes title "playlist" ||
        strIncludes title "weekly" || strIncludes title "daily" ||
        strIncludes title "discover" || strIncludes title "radar" ||
        strIncludes title "on repeat" || strIncludes title "time capsule" ||
        strIncludes title "chill" || strIncludes title "peaceful" ||
        strIncludes title "deep focus" || strIncludes title "instrumental" then
      { acc with playlistCount := acc.playlistCount + 1 }
    else acc
  let acc :=
    if !(album == "unknown album") && decide (album.length > 0) &&
        !strIncludes title "playlist" && !strIncludes title "mix" &&
        !strIncludes title "weekly" then
      { acc with albumCount := acc.albumCount + 1 }
    else acc
  let acc :=
    if decide (title.length > 0) && decide (artist.length > 0) &&
        !strIncludes title "playlist" && !strIncludes title "mix" &&
        !strIncludes title "weekly" && !strIncludes title "daily" &&
        !strIncludes title "discover" && !strIncludes title "radar" then
      { acc with songCount := acc.songCount + 1 }
    else acc
  let acc :=
    if strIncludes title "daily mix" || strIncludes title "discover weekly" ||
        strIncludes title "release radar" || strIncludes title "on repeat" ||
        strIncludes title "time capsule" || strIncludes title "chill hits" ||
        strIncludes title "peaceful piano" || strIncludes title "deep focus" then
      { acc with madeForYouCount := acc.madeForYouCount + 1 }
    else acc
  let acc :=
    if !(artist == "unknown artist") && !(title == "unknown title") &&
        !strIncludes title "playlist" && !strIncludes title "mix" &&
        !strIncludes title "weekly" && !strIncludes title "daily" then
      { acc with recentlyPlayedCount := acc.recentlyPlayedCount + 1 }
    else acc
  let acc :=
    if !(album == "unknown album") && decide (album.length > 0) &&
        !strIncludes title "playlist" && !strIncludes title "mix" then
      { acc with popularAlbumsCount := acc.popularAlbumsCount + 1 }
    else acc
  acc

/-- `contentAnalysis`: fold of `contentStep` over the mapped rows, starting
from all-zero counters. -/
def contentAnalysis (mapped : List Obj) : ContentCounts :=
  mapped.foldl contentStep ⟨0, 0, 0, 0, 0, 0⟩

/-! ## Section assignment and the fetch pipeline -/

/-- The three shelves (the source's `assignedSection` strings). -/
inductive ShelfTag where
  | recently_played
  | made_for_you
  | popular_albums
  deriving Repr, DecidableEq

/-- The section-assignment cascade (`INTELLIGENT SECTION ASSIGNMENT`):
name-based matches first (Recently Played, Made For You, Popular Albums, in
that order), then the content-analysis checks; `none` means unassigned. -/
def assignSection (tl : String) (c : ContentCounts) : Option ShelfTag :=
  if nameIsRecentlyPlayed tl then some ShelfTag.recently_played
  else if nameIsMadeForYou tl then some ShelfTag.made_for_you
  else if nameIsPopularAlbums tl then some ShelfTag.popular_albums
  else if decide (c.madeForYouCount > 0) then some ShelfTag.made_for_you
  else if decide (c.playlistCount > c.songCount) && decide (c.playlistCount > c.albumCount) then
    some ShelfTag.made_for_you
  else if decide (c.popularAlbumsCount > 0) ||
      (decide (c.albumCount > c.songCount) && decide (c.albumCount > c.playlistCount)) then
    some ShelfTag.popular_albums
  else if decide (c.recentlyPlayedCount > 0) || decide (c.songCount > 0) then
    some ShelfTag.recently_played
  else none

/-- Map with the element's position, used to give each row its own
randomness oracle. -/
def mapWithIdx {α β : Type} (f : Nat → α → β) : Nat → List α → List β
  | _, [] => []
  | i, a :: rest => f i a :: mapWithIdx f (i + 1) rest

/-- The four accumulator lists of the classification loop. -/
structure Accum where
  rp : List Obj
  mfy : List Obj
  pa : List Obj
  un : List Obj
  deriving DecidableEq

/-- Processing of one `[tableName, data]` entry of `allData`: skip empty
tables, run the detector on the first row's columns, normalize every row,
classify, and push the whole mapped list onto exactly one accumulator. -/
def processTable (ctxOf : String → Nat → NormCtx) (acc : Accum)
    (e : String × List Obj) : Accum :=
  match e.2 with
  | [] => acc
  | firstRow :: _ =>
    if hasMusicData (firstRow.map Prod.fst) then
      let mapped := mapWithIdx (fun i it => normalizeItem (ctxOf e.1 i) it) 0 e.2
      match assignSection (jsToLower e.1) (contentAnalysis mapped) with
      | some ShelfTag.recently_played => ⟨acc.rp ++ mapped, acc.mfy, acc.pa, acc.un⟩
      | some ShelfTag.made_for_you => ⟨acc.rp, acc.mfy ++ mapped, acc.pa, acc.un⟩
      | some ShelfTag.popular_albums => ⟨acc.rp, acc.mfy, acc.pa ++ mapped, acc.un⟩
      | none => ⟨acc.rp, acc.mfy, acc.pa, acc.un ++ mapped⟩
    else acc

/-- The classification loop over all fetched tables. -/
def classifyAll (ctxOf : String → Nat → NormCtx)
    (allData : List (String × List Obj)) : Accum :=
  allData.foldl (processTable ctxOf) ⟨[], [], [], []⟩

/-- The three shelf outputs. -/
structure Shelves where
  recentlyPlayed : List Obj
  madeForYou : List Obj
  popularAlbums : List Obj
  deriving DecidableEq

/-- `Math.ceil(n / k)` on non-negative integers. -/
def jsCeilDiv (n k : Nat) : Nat := (n + k - 1) / k

/-- `arr.splice(0, c)`: the removed elements and the remaining array. -/
def spliceFill (shelf un : List Obj) (c : Nat) : List Obj × List Obj :=
  (shelf ++ un.take c, un.drop c)

/-- First redistribution block: if Recently Played is empty and the pool
is not, `splice` up to `min(6, ceil(pool/3))` items onto it. -/
def fillRecentlyPlayed (a : Accum) : Accum :=
  if a.rp.length = 0 ∧ a.un.length > 0 then
    let p := spliceFill a.rp a.un (min 6 (jsCeilDiv a.un.length 3))
    ⟨p.1, a.mfy, a.pa, p.2⟩
  else a

/-- Second redistribution block: top up an empty Made For You shelf with
up to `min(6, ceil(pool/2))` items from what remains of the pool. -/
def fillMadeForYou (a : Accum) : Accum :=
  if a.mfy.length = 0 ∧ a.un.length > 0 then
    let p := spliceFill a.mfy a.un (min 6 (jsCeilDiv a.un.length 2))
    ⟨a.rp, p.1, a.pa, p.2⟩
  else a

/-- Third redistribution block: top up an empty Popular Albums shelf with
up to `min(6, pool)` items from what remains of the pool. -/
def fillPopularAlbums (a : Accum) : Accum :=
  if a.pa.length = 0 ∧ a.un.length > 0 then
    let p := spliceFill a.pa a.un (min 6 a.un.length)
    ⟨a.rp, a.mfy, p.1, p.2⟩
  else a

/-- Final redistribution block: split any remaining pool into three
`slice`s of size `ceil(n/3)` appended to the three shelves. -/
def distributeRemainder (a : Accum) : Shelves :=
  if a.un.length > 0 then
    let c := jsCeilDiv a.un.length 3
    ⟨a.rp ++ a.un.take c, a.mfy ++ (a.un.drop c).take c, a.pa ++ a.un.drop (2 * c)⟩
  else ⟨a.rp, a.mfy, a.pa⟩

/-- Post-hoc redistribution of the unassigned pool
(`DISTRIBUTE UNASSIGNED DATA INTELLIGENTLY`): the four source blocks in
order, run only when the pool is non-empty. -/
def redistribute (a : Accum) : Shelves :=
  if a.un.length > 0 then
    distributeRemainder (fillPopularAlbums (fillMadeForYou (fillRecentlyPlayed a)))
  else ⟨a.rp, a.mfy, a.pa⟩

/-- The full classification-and-redistribution pipeline of one fetch batch. -/
def runPipeline (ctxOf : String → Nat → NormCtx)
    (allData : List (String × List Obj)) : Shelves :=
  redistribute (classifyAll ctxOf allData)

/-! ## The whole fetch cycle (`fetchData`) -/

/-- Environment of one successful `fetchData` round: the discovered table
names, the rows obtained per table (`none` for a table whose data request
came back non-ok and was therefore never entered into `allData`; an inner
fetch exception stores `some []`), and the randomness oracle. -/
structure FetchBatch where
  tables : List String
  dataOf : String → Option (List Obj)
  ctxOf : String → Nat → NormCtx

/-- `Object.entries(allData)` in table order. -/
def allDataEntries (b : FetchBatch) : List (String × List Obj) :=
  b.tables.filterMap (fun t => (b.dataOf t).map (fun d => (t, d)))

/-- One `fetchData` run.  The `Except.error` case is the outer
`try`/`catch`: any exception anywhere in the cycle resets all three shelves
to `[]`.  Zero discovered tables short-circuit to empty shelves as well.
The three shelf states are always produced together as one `Shelves`
value, matching the single block of `set*` calls in the source. -/
def fetchCycle (outcome : Except String FetchBatch) : Shelves :=
  match outcome with
  | Except.error _ => ⟨[], [], []⟩
  | Except.ok b =>
    if b.tables = [] then ⟨[], [], []⟩
    else runPipeline b.ctxOf (allDataEntries b)

/-! ## API route handlers -/

/-- Parsed `psql "\dt"` output: keep lines containing `|` but neither
`Schema` nor `----`, split on `|`, trim, take the second field, and drop
empty names, the header word `Name`, and sequence objects (tables-route
`GET`). -/
def parseTablesOutput (stdout : String) : List String :=
  (jsSplit stdout "\n").foldl
    (fun tables line =>
      if strIncludes line "|" && !strIncludes line "Schema" && !strIncludes line "----" then
        let parts := (jsSplit line "|").map jsTrim
        if parts.length ≥ 3 then
          let tableName := parts.getD 1 ""
          if !(tableName == "") && !(tableName == "Name") && !strIncludes tableName "_seq" then
            tables ++ [tableName]
          else tables
        else tables
      else tables)
    []

/-- Response of the tables route: status code and table list. -/
structure TablesResponse where
  status : Nat
  tables : List String
  deriving DecidableEq

/-- Table discovery (`GET` of the tables route): parse the `psql` output on
success; on any failure of the backend call, respond `200` with an empty
list (the `catch` branch). -/
def tablesGET (execResult : Except String String) : TablesResponse :=
  match execResult with
  | Except.ok stdout => ⟨200, parseTablesOutput stdout⟩
  | Except.error _ => ⟨200, []⟩

/-- State of the line scan of the `psql SELECT` output in `route.ts`:
the header line, the collected data-row lines, and the `inDataSection`
flag. -/
structure PsqlScan where
  headerLine : String
  dataRows : List String
  inData : Bool

/-- The indexed line scan of `route.ts`: skip blank lines; on a `----`
separator record the previous raw line as the header and enter the data
section; inside it collect trimmed lines that contain neither `(` nor
`row`. -/
def scanPsqlLines (lines : List String) : PsqlScan :=
  lines.enum.foldl
    (fun st p =>
      if jsTrim p.2 == "" then st
      else if strIncludes p.2 "----" then
        ⟨if p.1 > 0 then lines.getD (p.1 - 1) "" else st.headerLine, st.dataRows, true⟩
      else if st.inData && !(jsTrim p.2 == "") && !strIncludes p.2 "(" &&
          !strIncludes p.2 "row" then
        ⟨st.headerLine, st.dataRows ++ [jsTrim p.2], st.inData⟩
      else st)
    ⟨"", [], false⟩

/-- Parsed rows of the `psql SELECT` output: column names from the header
(split on `|`, trimmed, empties dropped), each data row zipped with them
(the loop bound `i < columns.length && i < values.length`), keeping only
non-empty row objects. -/
def parsePsqlRows (stdout : String) : List Obj :=
  let st := scanPsqlLines (jsSplit stdout "\n")
  if !(st.headerLine == "") && decide (st.dataRows.length > 0) then
    let columns := ((jsSplit st.headerLine "|").map jsTrim).filter (fun c => !(c == ""))
    st.dataRows.foldl
      (fun data rowLine =>
        let values := (jsSplit rowLine "|").map jsTrim
        let row : Obj := (columns.zip values).map (fun p => (p.1, JsVal.str p.2))
        if decide (row.length > 0) then data ++ [row] else data)
      []
  else []

/-- Response of the data route: status code, rows, optional error body. -/
structure DataResponse where
  status : Nat
  data : List Obj
  error : Option String
  deriving DecidableEq

/-- The row fetcher (`GET` of `route.ts`): a missing or empty `table`
parameter yields a `400` error response; otherwise the `psql` output is
parsed on success, and any backend failure is caught and answered with
`200` and an empty `data` list. -/
def dbGET (table : Option String) (execResult : Except String String) : DataResponse :=
  match table with
  | none => ⟨400, [], some "Table parameter is required"⟩
  | some t =>
    if t == "" then ⟨400, [], some "Table parameter is required"⟩
    else
      match execResult with
      | Except.ok stdout => ⟨200, parsePsqlRows stdout, none⟩
      | Except.error _ => ⟨200, [], none⟩

/-! ## Row counting: the quantities the conservation claim compares -/

/-- Total size of the four accumulator lists. -/
def accTotal (a : Accum) : Nat :=
  a.rp.length + a.mfy.length + a.pa.length + a.un.length

/-- Total number of rows across the three shelves. -/
def shelfTotal (s : Shelves) : Nat :=
  s.recentlyPlayed.length + s.madeForYou.length + s.popularAlbums.length

/-- Rows one table contributes to classification: its row count when it is
non-empty and its first row's columns pass the music-data detector, else 0. -/
def tableContribution (e : String × List Obj) : Nat :=
  match e.2 with
  | [] => 0
  | firstRow :: _ => if hasMusicData (firstRow.map Prod.fst) then e.2.length else 0

/-- Total number of rows retrieved from all tables that passed the
music-data detector. -/
def detectedRowTotal : List (String × List Obj) → Nat
  | [] => 0
  | e :: rest => tableContribution e + detectedRowTotal rest

/-- A row all of whose values are strings, as produced by the repository's
own row fetcher (`parsePsqlRows` only ever builds `JsVal.str` values).  On
rows with non-string values the real `contentAnalysis` would raise a
`TypeError` instead of counting, so the pipeline theorems assume this. -/
def rowAllStrings (o : Obj) : Bool :=
  o.all (fun p => match p.2 with | JsVal.str _ => true | _ => false)

/-- String-valuedness of every row of every table of a fetch batch. -/
def batchAllStrings (l : List (String × List Obj)) : Bool :=
  l.all (fun e => e.2.all rowAllStrings)

/-! ## Helper lemmas about lookup, spread and mapping -/

theorem findFirst_append_isSome {α : Type} (p : α → Bool) (a b : List α)
    (h : (a.find? p).isSome) : (a ++ b).find? p = a.find? p := by
  induction a with
  | nil => simp at h
  | cons x xs ih =>
    cases hpx : p x with
    | true => simp [List.find?_cons, hpx]
    | false =>
      simp only [List.cons_append, List.find?_cons, hpx] at h ⊢
      exact ih h

theorem findFirst_append_none {α : Type} (p : α → Bool) (a b : List α)
    (h : a.find? p = none) : (a ++ b).find? p = b.find? p := by
  induction a with
  | nil => simp
  | cons x xs ih =>
    cases hpx : p x with
    | true => simp [List.find?_cons, hpx] at h
    | false =>
      simp only [List.cons_append, List.find?_cons, hpx] at h ⊢
      exact ih h

theorem oget_append (xs ys : Obj) (k : String) :
    oget (xs ++ ys) k = if hasKey ys k then oget ys k else oget xs k := by
  unfold oget hasKey
  rw [List.reverse_append]
  cases hfind : ys.reverse.find? (fun p => p.1 == k) with
  | none =>
    rw [findFirst_append_none _ _ _ hfind]
    simp [oget, hfind]
  | some v =>
    rw [findFirst_append_isSome _ _ _ (by simp [hfind])]
    simp [oget, hfind]

theorem oget_eq_none_of_hasKey_false (o : Obj) (k : String)
    (h : hasKey o k = false) : oget o k = none := by
  unfold hasKey at h
  cases hg : oget o k with
  | none => rfl
  | some v => rw [hg] at h; simp at h

theorem normFields_keys (ctx : NormCtx) (item : Obj) :
    (normFields ctx item).map Prod.fst =
      ["id", "title", "artist", "album", "image", "duration"] := by
  unfold normFields
  split_ifs <;> rfl

theorem oget_normFields_duration (ctx : NormCtx) (item : Obj) :
    oget (normFields ctx item) "duration" =
      some (jsOr (oget item "duration") (JsVal.num (120 + (ctx.randDur : Int)))) := by
  unfold normFields
  split_ifs <;> rfl

theorem oget_normFields_title_fallback (ctx : NormCtx) (item : Obj)
    (h1 : (hasKey item "description" && hasKey item "type") = false)
    (h2 : (truthyO (oget item "artist") && truthyO (oget item "album") &&
        !truthyO (oget item "cover_image")) = false)
    (h3 : hasKey item "cover_image" = false)
    (h4 : (hasKey item "artist" && hasKey item "album") = false) :
    oget (normFields ctx item) "title" =
      some (preferRealV (firstTruthy item (JsVal.str "Unknown Title") titleChainKeys)
        "Unknown Title") := by
  unfold normFields
  rw [h1, h2, h3, h4]
  rfl

theorem firstTruthy_of_all_absent (item : Obj) (dflt : JsVal) (keys : List String)
    (h : ∀ k ∈ keys, hasKey item k = false) : firstTruthy item dflt keys = dflt := by
  induction keys with
  | nil => rfl
  | cons k ks ih =>
    unfold firstTruthy
    rw [oget_eq_none_of_hasKey_false _ _ (h k (by simp))]
    exact ih (fun k1 hk1 => h k1 (by simp [hk1]))

theorem length_mapWithIdx {α β : Type} (f : Nat → α → β) :
    ∀ (i : Nat) (l : List α), (mapWithIdx f i l).length = l.length := by
  intro i l
  induction l generalizing i with
  | nil => rfl
  | cons a rest ih => simp [mapWithIdx, ih]

/-! ## The claims -/

/-- Acceptance condition of the "prefer real" filter exactly as the claim
states it (modelled from the spec's words, for comparison): a non-empty
string of length greater than one whose lowercase form contains none of
`id`, `unknown`, `test`. -/
def specAcceptNoTrim (s : String) : Bool :=
  !(s == "") && decide (s.length > 1) &&
  !(strIncludes (jsToLower s) "id") &&
  !(strIncludes (jsToLower s) "unknown") &&
  !(strIncludes (jsToLower s) "test")

/-- The claim's acceptance condition amended with the whitespace check the
code actually performs: the candidate must additionally trim to a
non-empty string. -/
def specAcceptReal (s : String) : Bool :=
  specAcceptNoTrim s && !(jsTrim s == "")

/-- C4 (counterexample): the two-space string `"  "` satisfies every
condition of the claim's filter (non-empty, length 2 > 1, no banned
substring), yet `preferReal` rejects it and returns the fallback, because
the code also requires `val.trim() !== ''`.  So the claim's "if and only
if" fails. -/
theorem c4_counterexample :
    specAcceptNoTrim "  " = true ∧
    preferRealV (JsVal.str "  ") "FB" = JsVal.str "FB" ∧
    preferRealV (JsVal.str "  ") "FB" ≠ JsVal.str "  " := by
  refine ⟨by decide, by decide, by decide⟩

/-- C4 (amended): a candidate string is accepted, and returned verbatim,
exactly when it is non-empty, longer than one character, free of the
substrings `id` / `unknown` / `test` (case-insensitively), and does not
consist solely of whitespace (its trim is non-empty); otherwise the fixed
fallback is returned. -/
theorem c4_prefer_real_characterization (s fb : String) :
    preferRealV (JsVal.str s) fb = JsVal.str (if specAcceptReal s then s else fb) := by
  have h : ∀ a b c d e f : Bool,
      (a && b && c && d && e && f) = ((a && f && c && d && e) && b) := by
    intro a b c d e f
    cases a <;> cases b <;> cases c <;> cases d <;> cases e <;> cases f <;> rfl
  simp only [preferRealV, specAcceptReal, specAcceptNoTrim]
  rw [apply_ite JsVal.str, h]

/-- C9: in the main component's normalizer, a row without a `duration` key
gets the pseudo-random placeholder `120 + Math.floor(Math.random() * 300)`,
an integer in `[120, 420)`; a row that has a `duration` key keeps its own
value verbatim (the trailing `...item` spread re-asserts it even when it is
falsy). -/
theorem c9_duration_field (ctx : NormCtx) (item : Obj) (hr : ctx.randDur < 300) :
    (hasKey item "duration" = false →
      oget (normalizeItem ctx item) "duration" =
        some (JsVal.num (120 + (ctx.randDur : Int))) ∧
      (120 : Int) ≤ 120 + (ctx.randDur : Int) ∧ 120 + (ctx.randDur : Int) < 420) ∧
    (hasKey item "duration" = true →
      oget (normalizeItem ctx item) "duration" = oget item "duration") := by
  constructor
  · intro h
    refine ⟨?_, by omega, by omega⟩
    rw [normalizeItem, oget_append, h]
    simp only [Bool.false_eq_true, if_false]
    rw [oget_normFields_duration, oget_eq_none_of_hasKey_false _ _ h]
    rfl
  · intro h
    rw [normalizeItem, oget_append, h]
    simp

/-- Witness for C9 at two concrete rows: no `duration` key (placeholder
`125` for the draw `randDur = 5`), and a present-but-zero `duration`
(kept verbatim). -/
theorem c9_duration_field_witness :
    oget (normalizeItem ⟨5, "z"⟩ [("title", JsVal.str "Hi")]) "duration" =
      some (JsVal.num 125) ∧
    oget (normalizeItem ⟨5, "z"⟩ [("duration", JsVal.num 0)]) "duration" =
      some (JsVal.num 0) := by
  constructor
  · exact ((c9_duration_field ⟨5, "z"⟩ [("title", JsVal.str "Hi")] (by decide)).1 (by decide)).1
  · exact ((c9_duration_field ⟨5, "z"⟩ [("duration", JsVal.num 0)] (by decide)).2 (by decide)).trans
      (by decide)

/-- C10: every source branch of the normalizer returns
`{ ...computed fields, ...item }` with the original row spread last, so any
key of the row among `title`, `artist`, `album`, `image`, `duration`, `id`
reaches the output verbatim — even an empty or filter-failing value —
overriding the computed fallback. -/
theorem c10_spread_overrides (ctx : NormCtx) (item : Obj) (k : String)
    (_hk : k ∈ ["title", "artist", "album", "image", "duration", "id"])
    (h : hasKey item k = true) :
    oget (normalizeItem ctx item) k = oget item k := by
  rw [normalizeItem, oget_append, h]
  simp

/-- Witness for C10: a row whose own `title` is the empty string (which
fails the "prefer real" filter) still yields that empty string. -/
theorem c10_spread_overrides_witness :
    oget (normalizeItem ⟨0, "r"⟩ [("title", JsVal.str "")]) "title" =
      some (JsVal.str "") := by
  exact (c10_spread_overrides ⟨0, "r"⟩ [("title", JsVal.str "")] "title"
    (by decide) (by decide)).trans (by decide)

/-- C3 (counterexample): the row `{description: "chill vibes",
type: "morning mixes"}` has none of the six title-candidate fields, yet
the main component's normalizer takes the description/type branch and
returns `"Unknown Playlist"`, not `"Unknown Title"`. -/
theorem c3_counterexample :
    (∀ k ∈ titleChainKeys,
      hasKey [("description", JsVal.str "chill vibes"), ("type", JsVal.str "morning mixes")] k
        = false) ∧
    oget (normalizeItem ⟨0, "r"⟩
        [("description", JsVal.str "chill vibes"), ("type", JsVal.str "morning mixes")])
      "title" = some (JsVal.str "Unknown Playlist") ∧
    some (JsVal.str "Unknown Playlist") ≠ some (JsVal.str "Unknown Title") := by
  refine ⟨by decide, by decide, by decide⟩

/-- C3 (amended): for rows that reach the generic fallback branch of the
main component's normalizer (none of the four special-shape branches
applies) and that do not themselves carry a `title` key the spread would
re-assert, the title is resolved through the ordered chain `title`,
`song_name`, `track_name`, `name`, `album`, `album_name` (first truthy
value, filtered by "prefer real" with fallback `"Unknown Title"`); in
particular, when every candidate field is absent the result is exactly
`"Unknown Title"`. -/
theorem c3_fallback_title_chain (ctx : NormCtx) (item : Obj)
    (h1 : (hasKey item "description" && hasKey item "type") = false)
    (h2 : (truthyO (oget item "artist") && truthyO (oget item "album") &&
        !truthyO (oget item "cover_image")) = false)
    (h3 : hasKey item "cover_image" = false)
    (h4 : (hasKey item "artist" && hasKey item "album") = false)
    (h5 : hasKey item "title" = false) :
    oget (normalizeItem ctx item) "title" =
      some (preferRealV (firstTruthy item (JsVal.str "Unknown Title") titleChainKeys)
        "Unknown Title") ∧
    ((∀ k ∈ titleChainKeys, hasKey item k = false) →
      oget (normalizeItem ctx item) "title" = some (JsVal.str "Unknown Title")) := by
  have hbase : oget (normalizeItem ctx item) "title" =
      some (preferRealV (firstTruthy item (JsVal.str "Unknown Title") titleChainKeys)
        "Unknown Title") := by
    rw [normalizeItem, oget_append, h5]
    simp only [Bool.false_eq_true, if_false]
    exact oget_normFields_title_fallback ctx item h1 h2 h3 h4
  refine ⟨hbase, fun hall => ?_⟩
  rw [hbase, firstTruthy_of_all_absent _ _ _ hall]
  decide

/-- Witness for C3 (amended) at the row `{foo: "bar"}`: the generic branch
applies, every candidate is absent, and the title is `"Unknown Title"`. -/
theorem c3_fallback_title_chain_witness :
    oget (normalizeItem ⟨0, "r"⟩ [("foo", JsVal.str "bar")]) "title" =
      some (JsVal.str "Unknown Title") := by
  exact (c3_fallback_title_chain ⟨0, "r"⟩ [("foo", JsVal.str "bar")]
    (by decide) (by decide) (by decide) (by decide) (by decide)).2 (by decide)

theorem colHasMusic_iff (col : String) :
    colHasMusic col = true ↔
      ∃ kw ∈ musicKeywords, strIncludes (jsToLower col) kw = true := by
  simp only [colHasMusic, musicKeywords, Bool.or_eq_true, List.mem_cons,
    List.not_mem_nil, or_false, exists_eq_or_imp, exists_eq_left]
  tauto

/-- C5: the music-data detector passes a sampled row exactly when at least
one of its column names, lowercased, contains one of the thirteen fixed
keywords; and a whole pipeline run over the table `weird_table_1` whose
only column is `foo` leaves every shelf empty. -/
theorem c5_music_detector (cols : List String) :
    (hasMusicData cols = true ↔
      ∃ col ∈ cols, ∃ kw ∈ musicKeywords, strIncludes (jsToLower col) kw = true) ∧
    runPipeline (fun _ _ => ⟨0, "r"⟩) [("weird_table_1", [[("foo", JsVal.str "bar")]])] =
      ⟨[], [], []⟩ := by
  constructor
  · rw [hasMusicData, List.any_eq_true]
    exact ⟨fun ⟨c, hc, hm⟩ => ⟨c, hc, (colHasMusic_iff c).1 hm⟩,
           fun ⟨c, hc, hm⟩ => ⟨c, hc, (colHasMusic_iff c).2 hm⟩⟩
  · decide

/-- C2 (counterexample): the table name `popular_songs` contains
`popular`, but it also contains `song`, and the Recently-Played name check
runs first — so all of its rows land on the Recently Played shelf and the
Popular Albums shelf stays empty. -/
theorem c2_counterexample :
    strIncludes (jsToLower "popular_songs") "popular" = true ∧
    (runPipeline (fun _ _ => ⟨0, "r"⟩)
      [("popular_songs",
        [[("title", JsVal.str "Hello"), ("artist", JsVal.str "Adele"),
          ("album", JsVal.str "25")]])]).popularAlbums = [] ∧
    (runPipeline (fun _ _ => ⟨0, "r"⟩)
      [("popular_songs",
        [[("title", JsVal.str "Hello"), ("artist", JsVal.str "Adele"),
          ("album", JsVal.str "25")]])]).recentlyPlayed.length = 1 := by
  refine ⟨by decide, by decide, by decide⟩

/-- C2 (amended): for a detected table whose lowercased name contains
`popular` AND matches neither the Recently-Played nor the Made-For-You
name keywords, the step-1 name match does assign all of the table's
normalized rows to the Popular Albums shelf, leaving the other
accumulators untouched. -/
theorem c2_popular_name_precedence (ctxOf : String → Nat → NormCtx) (acc : Accum)
    (t : String) (data : List Obj) (firstRow : Obj) (rest : List Obj)
    (hdata : data = firstRow :: rest)
    (hdet : hasMusicData (firstRow.map Prod.fst) = true)
    (hpop : strIncludes (jsToLower t) "popular" = true)
    (hrp : nameIsRecentlyPlayed (jsToLower t) = false)
    (hmfy : nameIsMadeForYou (jsToLower t) = false) :
    processTable ctxOf acc (t, data) =
      ⟨acc.rp, acc.mfy,
        acc.pa ++ mapWithIdx (fun i it => normalizeItem (ctxOf t i) it) 0 data,
        acc.un⟩ := by
  subst hdata
  have hpa : nameIsPopularAlbums (jsToLower t) = true := by
    unfold nameIsPopularAlbums
    rw [hpop]
    rfl
  have hassign : assignSection (jsToLower t)
      (contentAnalysis (mapWithIdx (fun i it => normalizeItem (ctxOf t i) it) 0
        (firstRow :: rest))) = some ShelfTag.popular_albums := by
    unfold assignSection
    rw [hrp, hmfy, hpa]
    rfl
  unfold processTable
  simp only [hdet, if_true, hassign]

/-- Witness for C2 (amended) at the table `popular_albums` with one
cover-image row: its single row is pushed to the Popular Albums
accumulator. -/
theorem c2_popular_name_precedence_witness :
    (processTable (fun _ _ => ⟨0, "r"⟩) ⟨[], [], [], []⟩ ("popular_albums",
      [[("title", JsVal.str "Midnights"), ("artist", JsVal.str "Taylor"),
        ("cover_image", JsVal.str "u")]])).pa.length = 1 ∧
    (processTable (fun _ _ => ⟨0, "r"⟩) ⟨[], [], [], []⟩ ("popular_albums",
      [[("title", JsVal.str "Midnights"), ("artist", JsVal.str "Taylor"),
        ("cover_image", JsVal.str "u")]])).rp = [] := by
  rw [c2_popular_name_precedence (fun _ _ => ⟨0, "r"⟩) ⟨[], [], [], []⟩ "popular_albums"
    _ _ _ rfl (by decide) (by decide) (by decide) (by decide)]
  refine ⟨by decide, by decide⟩

/-- The three-row table used to analyse C6: one row normalizing to the
title "Daily Mix 1" (a made-for-you pattern) and two plain song/album
rows, so the album-flavoured counters strictly dominate the
playlist/made-for-you ones. -/
def c6Rows : List Obj :=
  [[("name", JsVal.str "Daily Mix 1"), ("creator", JsVal.str "Somebody")],
   [("name", JsVal.str "Thriller"), ("creator", JsVal.str "Quincy"),
    ("album_name", JsVal.str "Thriller")],
   [("name", JsVal.str "Believe"), ("creator", JsVal.str "Cher"),
    ("album_name", JsVal.str "Believe")]]

/-- Content counters of the C6 table after normalization. -/
def c6Counts : ContentCounts :=
  contentAnalysis (mapWithIdx (fun _ it => normalizeItem ⟨0, "r"⟩ it) 0 c6Rows)

/-- C6 (counterexample): for the table name `stuff` (no step-1 name match)
and the rows of `c6Rows`, the classifier assigns Made For You although the
Made-For-You-flavoured counters (`playlistCount = 1`,
`madeForYouCount = 1`) are strictly below the Popular-Albums-flavoured
counters (`albumCount = 2`, `popularAlbumsCount = 2`) — the assigned shelf
does not have the highest content count under either reading of the
claim. -/
theorem c6_counterexample :
    nameIsRecentlyPlayed (jsToLower "stuff") = false ∧
    nameIsMadeForYou (jsToLower "stuff") = false ∧
    nameIsPopularAlbums (jsToLower "stuff") = false ∧
    assignSection (jsToLower "stuff") c6Counts = some ShelfTag.made_for_you ∧
    c6Counts.playlistCount < c6Counts.albumCount ∧
    c6Counts.madeForYouCount < c6Counts.popularAlbumsCount := by
  refine ⟨by decide, by decide, by decide, by decide, by decide, by decide⟩

/-- C6 (amended): for every table with no step-1 name match, step 2
assigns Made For You when the made-for-you pattern count is positive or
the playlist count strictly exceeds both the song and the album count;
otherwise Popular Albums when the popular-albums count is positive or the
album count strictly exceeds both the song and the playlist count;
otherwise Recently Played when the recently-played or the song count is
positive; otherwise the table stays unassigned. -/
theorem c6_content_cascade (tl : String) (c : ContentCounts)
    (h1 : nameIsRecentlyPlayed tl = false)
    (h2 : nameIsMadeForYou tl = false)
    (h3 : nameIsPopularAlbums tl = false) :
    assignSection tl c =
      if c.madeForYouCount > 0 then some ShelfTag.made_for_you
      else if c.playlistCount > c.songCount ∧ c.playlistCount > c.albumCount then
        some ShelfTag.made_for_you
      else if c.popularAlbumsCount > 0 ∨
          (c.albumCount > c.songCount ∧ c.albumCount > c.playlistCount) then
        some ShelfTag.popular_albums
      else if c.recentlyPlayedCount > 0 ∨ c.songCount > 0 then
        some ShelfTag.recently_played
      else none := by
  unfold assignSection
  rw [h1, h2, h3]
  simp only [Bool.false_eq_true, if_false, Bool.and_eq_true, Bool.or_eq_true,
    decide_eq_true_eq]

/-- Witness for C6 (amended): a no-name-match table with one playlist-ish
row and nothing else goes to Made For You. -/
theorem c6_content_cascade_witness :
    assignSection "stuff" ⟨1, 0, 0, 0, 0, 0⟩ = some ShelfTag.made_for_you := by
  rw [c6_content_cascade "stuff" ⟨1, 0, 0, 0, 0, 0⟩ (by decide) (by decide) (by decide)]
  norm_num

/-! ## Counting lemmas for the conservation claim -/

theorem spliceFill_total (shelf un : List Obj) (c : Nat) :
    (spliceFill shelf un c).1.length + (spliceFill shelf un c).2.length =
      shelf.length + un.length := by
  have h := congrArg List.length (List.take_append_drop c un)
  simp only [List.length_append] at h
  simp only [spliceFill, List.length_append]
  omega

theorem three_slice_total (l : List Obj) (c : Nat) :
    (l.take c).length + ((l.drop c).take c).length + (l.drop (2 * c)).length =
      l.length := by
  have h1 := congrArg List.length (List.take_append_drop c l)
  have h2 := congrArg List.length (List.take_append_drop c (l.drop c))
  simp only [List.length_append, List.length_drop] at h1 h2
  simp only [List.length_drop]
  omega

theorem accTotal_fillRecentlyPlayed (a : Accum) :
    accTotal (fillRecentlyPlayed a) = accTotal a := by
  unfold fillRecentlyPlayed
  split_ifs with h
  · have := spliceFill_total a.rp a.un (min 6 (jsCeilDiv a.un.length 3))
    simp only [accTotal]
    omega
  · rfl

theorem accTotal_fillMadeForYou (a : Accum) :
    accTotal (fillMadeForYou a) = accTotal a := by
  unfold fillMadeForYou
  split_ifs with h
  · have := spliceFill_total a.mfy a.un (min 6 (jsCeilDiv a.un.length 2))
    simp only [accTotal]
    omega
  · rfl

theorem accTotal_fillPopularAlbums (a : Accum) :
    accTotal (fillPopularAlbums a) = accTotal a := by
  unfold fillPopularAlbums
  split_ifs with h
  · have := spliceFill_total a.pa a.un (min 6 a.un.length)
    simp only [accTotal]
    omega
  · rfl

theorem shelfTotal_distributeRemainder (a : Accum) :
    shelfTotal (distributeRemainder a) = accTotal a := by
  unfold distributeRemainder
  split_ifs with h
  · have := three_slice_total a.un (jsCeilDiv a.un.length 3)
    simp only [shelfTotal, accTotal, List.length_append]
    omega
  · simp only [shelfTotal, accTotal]
    omega

theorem redistribute_total (a : Accum) : shelfTotal (redistribute a) = accTotal a := by
  unfold redistribute
  split_ifs with h
  · rw [shelfTotal_distributeRemainder, accTotal_fillPopularAlbums,
      accTotal_fillMadeForYou, accTotal_fillRecentlyPlayed]
  · simp only [shelfTotal, accTotal]
    omega

theorem accTotal_processTable (ctxOf : String → Nat → NormCtx) (acc : Accum)
    (e : String × List Obj) :
    accTotal (processTable ctxOf acc e) = accTotal acc + tableContribution e := by
  unfold processTable tableContribution
  cases hd : e.2 with
  | nil => simp
  | cons firstRow rest =>
    cases h : hasMusicData (firstRow.map Prod.fst) with
    | false => simp [h, accTotal]
    | true =>
      simp only [h, if_true]
      cases hs : assignSection (jsToLower e.1)
          (contentAnalysis
            (mapWithIdx (fun i it => normalizeItem (ctxOf e.1 i) it) 0 (firstRow :: rest))) with
      | none =>
        simp [accTotal, length_mapWithIdx]
        omega
      | some tag =>
        cases tag <;> simp [accTotal, length_mapWithIdx] <;> omega

theorem accTotal_classifyAll (ctxOf : String → Nat → NormCtx)
    (l : List (String × List Obj)) :
    accTotal (classifyAll ctxOf l) = detectedRowTotal l := by
  suffices h : ∀ acc, accTotal (List.foldl (processTable ctxOf) acc l) =
      accTotal acc + detectedRowTotal l by
    have := h ⟨[], [], [], []⟩
    simpa [classifyAll, accTotal] using this
  induction l with
  | nil => intro acc; simp [detectedRowTotal]
  | cons e rest ih =>
    intro acc
    rw [List.foldl_cons, ih, accTotal_processTable, detectedRowTotal]
    omega

/-- C1: the total number of rows across the three shelves after full
classification and redistribution equals the total number of rows
retrieved from the tables that passed the music-data detector; the
splice/slice redistribution drops and duplicates nothing.  (The
string-valuedness hypothesis matches what the repository's own row
fetcher produces; on rows carrying non-string `title`/`artist`/`album`
values the source `contentAnalysis` would instead throw.) -/
theorem c1_total_conserved (ctxOf : String → Nat → NormCtx)
    (l : List (String × List Obj)) (_hs : batchAllStrings l = true) :
    shelfTotal (runPipeline ctxOf l) = detectedRowTotal l := by
  rw [runPipeline, redistribute_total, accTotal_classifyAll]

/-- Witness for C1: a two-table batch (one detected table with one row,
one rejected table) conserves its single detected row. -/
theorem c1_total_conserved_witness :
    shelfTotal (runPipeline (fun _ _ => ⟨0, "r"⟩)
      [("popular_albums",
        [[("title", JsVal.str "Midnights"), ("artist", JsVal.str "Taylor Swift"),
          ("cover_image", JsVal.str "u")]]),
       ("weird", [[("foo", JsVal.str "bar")]])]) =
    detectedRowTotal
      [("popular_albums",
        [[("title", JsVal.str "Midnights"), ("artist", JsVal.str "Taylor Swift"),
          ("cover_image", JsVal.str "u")]]),
       ("weird", [[("foo", JsVal.str "bar")]])] :=
  c1_total_conserved _ _ (by decide)

/-- C7: when the backend call fails, table discovery answers `200` with an
empty table list and the row fetcher (called with a table name, as the
front end always does) answers `200` with an empty row list — no error
status, nothing thrown. -/
theorem c7_backend_failure_empty (e : String) (t : String) (ht : (t == "") = false) :
    tablesGET (Except.error e) = ⟨200, []⟩ ∧
    dbGET (some t) (Except.error e) = ⟨200, [], none⟩ := by
  constructor
  · rfl
  · simp [dbGET, ht]

/-- Witness for C7 at a concrete failure and table name. -/
theorem c7_backend_failure_empty_witness :
    tablesGET (Except.error "connection refused") = ⟨200, []⟩ ∧
    dbGET (some "songs") (Except.error "connection refused") = ⟨200, [], none⟩ :=
  c7_backend_failure_empty "connection refused" "songs" (by decide)

/-- C8: a fetch cycle that fails anywhere (the outer `catch`) and a cycle
that discovers zero tables both set all three shelves to the empty list in
one step; no error escapes and no shelf keeps partial data. -/
theorem c8_failure_resets_shelves (e : String) (b : FetchBatch) (hb : b.tables = []) :
    fetchCycle (Except.error e) = ⟨[], [], []⟩ ∧
    fetchCycle (Except.ok b) = ⟨[], [], []⟩ := by
  exact ⟨rfl, by simp [fetchCycle, hb]⟩

/-- Witness for C8 at a concrete exception and an empty discovery. -/
theorem c8_failure_resets_shelves_witness :
    fetchCycle (Except.error "boom") = ⟨[], [], []⟩ ∧
    fetchCycle (Except.ok ⟨[], fun _ => none, fun _ _ => ⟨0, "r"⟩⟩) = ⟨[], [], []⟩ :=
  c8_failure_resets_shelves "boom" ⟨[], fun _ => none, fun _ _ => ⟨0, "r"⟩⟩ rfl

end Spotify
